import Mathlib

/-!
# manipdraw: GPU mouse-over picking and highlight blink

A shallow embedding of `src/manipdraw.c`.

* C `int` values (viewport, cursor) are integers; signed overflow is undefined in C, so
  the model covers the defined executions.
* `GLuint` handles and `GLushort` identifiers are naturals; 16-bit reads are reduced
  mod `65536`; `uint64_t` arithmetic is reduced mod `2 ^ 64`.
* `float` quantities that depend only on integer inputs (the blink alpha, clear values)
  are exact rationals. The `mat4` matrices are floating point products of host data and
  carry no information used below; they are not represented.
* The plugin's file-scope variables, the part of the OpenGL context they interact with,
  the contents of the 1x1 pick target and of the transfer buffer, and a trace of every
  external call form one explicit record, `World`.
* What the host and the GPU decide in one frame (cursor, datarefs, clock, whether the
  buffer mapping succeeds, what the identifier draw writes) is the record `Host`.
* `VERIFY` and `ASSERT` abort the process: functions return `Option`, `none` = abort.
-/

namespace Manipdraw

/-! ## Constants and machine arithmetic -/

/-- `UINT16_MAX`: the "no manipulator" value of `manip_idx`. -/
def UINT16_MAX : Nat := 65535

/-- Subtraction of two `uint64_t` values. -/
def u64_sub (a b : Nat) : Nat := (a % 2 ^ 64 + (2 ^ 64 - b % 2 ^ 64)) % 2 ^ 64

/-- Conversion of an `int` to `GLuint` (32 bit), as at `glBindFramebufferEXT(.., dr_geti(..))`. -/
def int_to_GLuint (i : Int) : Nat := (i % 4294967296).toNat

/-- Modelled from the spec: `SEC2USEC(0.2)`, a libacfutils helper that is not part of the
repository; the spec gives the idle threshold as 200,000 microseconds. -/
def SEC2USEC_0_2 : Nat := 200000

/-! ## OpenGL context -/

/-- Depth comparison functions of OpenGL. -/
inductive DepthFunc where
  | NEVER | LESS | EQUAL | LEQUAL | GREATER | NOTEQUAL | GEQUAL | ALWAYS
  deriving DecidableEq

/-- The two shader programs of the plugin (`resolve_shader`, `paint_shader`). -/
inductive Shader where
  | resolve_shader | paint_shader
  deriving DecidableEq

/-- Rectangle given to `glViewport`. -/
structure Viewport where
  x : Int
  y : Int
  w : Int
  h : Int
  deriving DecidableEq

/-- The part of the OpenGL context that `manipdraw.c` reads or writes. -/
structure GLState where
  /-- binding of `GL_FRAMEBUFFER` -/
  framebuffer : Nat
  viewport : Viewport
  /-- `GL_DEPTH_TEST` -/
  depth_test : Bool
  /-- `glDepthMask` -/
  depth_mask : Bool
  depth_func : DepthFunc
  clear_depth : ℚ
  /-- red, green, blue, alpha of `glClearColor` -/
  clear_color : ℚ × ℚ × ℚ × ℚ
  /-- `GL_BLEND` -/
  blend : Bool
  /-- binding of `GL_PIXEL_PACK_BUFFER` -/
  pixel_pack_buffer : Nat
  /-- program installed by `glUseProgram`, `none` for program 0 -/
  program : Option Shader
  deriving DecidableEq

/-- Capabilities passed to `glEnable` / `glDisable` in the source. -/
inductive Cap where
  | GL_DEPTH_TEST | GL_BLEND
  deriving DecidableEq

/-- Render modes of the obj8 collaborator used by the source. -/
inductive RenderMode where
  | OBJ8_RENDER_MODE_MANIP_ONLY
  | OBJ8_RENDER_MODE_MANIP_ONLY_ONE
  deriving DecidableEq

/-- One external call, as recorded in the trace. -/
inductive Call where
  | glBindBuffer (buf : Nat)
  | glMapBuffer (mapped : Bool)
  | glUnmapBuffer
  | glBindFramebufferEXT (fbo : Nat)
  | glViewport (x y w h : Int)
  | glEnable (c : Cap)
  | glDisable (c : Cap)
  | glDepthMask (b : Bool)
  | glDepthFunc (f : DepthFunc)
  | glClearDepth (d : ℚ)
  | glClearColor (r g b a : ℚ)
  | glClear
  | shader_obj_bind (p : Shader)
  | shader_obj_reload_check (p : Shader)
  | glUniformMatrix4fv (p : Shader)
  | glUniform1f (p : Shader) (v : ℚ)
  | obj8_set_render_mode (m : RenderMode)
  | obj8_set_render_mode2 (m : RenderMode) (arg : Nat)
  | obj8_draw_group (p : Shader)
  | glReadPixels
  | glUseProgram (p : Nat)
  | glGenTextures (n : Nat)
  | setup_texture (tex : Nat)
  | glGenFramebuffers
  | setup_color_fbo_for_tex (fbo tex depth : Nat)
  | glGenBuffers
  | glBufferData (size : Nat)
  | glDeleteBuffers (buf : Nat)
  | glDeleteFramebuffers (fbo : Nat)
  | glDeleteTextures (t0 t1 : Nat)
  deriving DecidableEq

/-! ## Program state -/

/-- File-scope variables of `manipdraw.c`, the OpenGL context, the contents of the pick
target and of the transfer buffer, and the trace of external calls. -/
structure World where
  /-- `cursor_tex[0]` (identifier texture) and `cursor_tex[1]` (depth texture) -/
  cursor_tex : Nat × Nat
  cursor_fbo : Nat
  cursor_pbo : Nat
  cursor_xfer : Bool
  manip_idx : Nat
  last_draw_t : Nat
  blink_start_t : Nat
  prev_manip_idx : Nat
  /-- `obj != NULL` -/
  obj : Bool
  xpver : Int
  gl : GLState
  /-- the single texel of the identifier texture attached to `cursor_fbo` -/
  pick_texel : Nat
  /-- the 16-bit value held by the buffer object `cursor_pbo` -/
  pbo_data : Nat
  /-- external calls made so far, oldest first -/
  trace : List Call
  deriving DecidableEq

/-- What the host and the GPU supply during one frame. -/
structure Host where
  /-- result of `XPLMGetMouseLocationGlobal` -/
  mouse_x : Int
  mouse_y : Int
  /-- dataref `sim/graphics/view/viewport` -/
  viewport : List Int
  /-- dataref `sim/graphics/view/current_gl_fbo` -/
  fbo : Int
  /-- dataref `sim/graphics/view/is_reverse_float_z` -/
  rev_float_z : Int
  /-- dataref `sim/graphics/view/using_modern_driver` -/
  modern_drv : Int
  /-- result of `microclock()` -/
  now : Nat
  /-- whether `glMapBuffer` returns a non-NULL pointer -/
  map_ok : Bool
  /-- identifier written to the pick texel by the manipulator draw, `none` when no
  manipulator surface covers the texel -/
  drawn : Option Nat
  deriving DecidableEq

/-- `VERIFY(c)` of libacfutils: abort unless `c`. -/
def VERIFY (c : Bool) : Option Unit := if c then some () else none

/-- `ASSERT(c)` of libacfutils, taken as an aborting check like `VERIFY` (debug build). -/
def ASSERT (c : Bool) : Option Unit := if c then some () else none

/-- `dr_getvi(dr, buf, off, num)`: the values read; the C return value is their count. -/
def dr_getvi (dr : List Int) (off num : Nat) : List Int := (dr.drop off).take num

/-- Append one call to the trace. -/
def emit (c : Call) (s : World) : World := { s with trace := s.trace ++ [c] }

/-- An external call whose only modelled effect is on the OpenGL context. -/
def gl_call (c : Call) (f : GLState → GLState) (s : World) : World :=
  { s with gl := f s.gl, trace := s.trace ++ [c] }

/-! ## External calls: effect on the modelled state -/

def glBindBuffer (buf : Nat) (s : World) : World :=
  gl_call (.glBindBuffer buf) (fun gl => { gl with pixel_pack_buffer := buf }) s

/-- `glMapBuffer(GL_PIXEL_PACK_BUFFER, GL_READ_ONLY)`: the value behind the returned
pointer, `none` for `NULL`. -/
def glMapBuffer (hst : Host) (s : World) : Option Nat × World :=
  (if hst.map_ok then some s.pbo_data else none, emit (.glMapBuffer hst.map_ok) s)

def glUnmapBuffer (s : World) : World := emit .glUnmapBuffer s

def glBindFramebufferEXT (fbo : Nat) (s : World) : World :=
  gl_call (.glBindFramebufferEXT fbo) (fun gl => { gl with framebuffer := fbo }) s

def glViewport (x y w h : Int) (s : World) : World :=
  gl_call (.glViewport x y w h) (fun gl => { gl with viewport := ⟨x, y, w, h⟩ }) s

def glEnable (c : Cap) (s : World) : World :=
  gl_call (.glEnable c)
    (fun gl =>
      match c with
      | .GL_DEPTH_TEST => { gl with depth_test := true }
      | .GL_BLEND => { gl with blend := true }) s

def glDisable (c : Cap) (s : World) : World :=
  gl_call (.glDisable c)
    (fun gl =>
      match c with
      | .GL_DEPTH_TEST => { gl with depth_test := false }
      | .GL_BLEND => { gl with blend := false }) s

def glDepthMask (b : Bool) (s : World) : World :=
  gl_call (.glDepthMask b) (fun gl => { gl with depth_mask := b }) s

def glDepthFunc (f : DepthFunc) (s : World) : World :=
  gl_call (.glDepthFunc f) (fun gl => { gl with depth_func := f }) s

/-- `glClearDepth(d)`; OpenGL clamps the value to `[0, 1]`. -/
def glClearDepth (d : ℚ) (s : World) : World :=
  gl_call (.glClearDepth d) (fun gl => { gl with clear_depth := max 0 (min 1 d) }) s

def glClearColor (r g b a : ℚ) (s : World) : World :=
  gl_call (.glClearColor r g b a) (fun gl => { gl with clear_color := (r, g, b, a) }) s

/-- Encoding of a colour component in a 16-bit normalised channel (`GL_R16`). -/
def unorm16 (c : ℚ) : Nat :=
  if c ≤ 0 then 0 else if 1 ≤ c then 65535 else (c * 65535 + 1 / 2).floor.toNat

/-- `glClear(GL_COLOR_BUFFER_BIT | GL_DEPTH_BUFFER_BIT)` on the pick target: the texel
takes the red clear colour. -/
def glClear (s : World) : World :=
  { s with pick_texel := unorm16 s.gl.clear_color.1, trace := s.trace ++ [.glClear] }

def shader_obj_bind (p : Shader) (s : World) : World :=
  gl_call (.shader_obj_bind p) (fun gl => { gl with program := some p }) s

def shader_obj_reload_check (p : Shader) (s : World) : World :=
  emit (.shader_obj_reload_check p) s

def glUniformMatrix4fv (p : Shader) (s : World) : World := emit (.glUniformMatrix4fv p) s

def glUniform1f (p : Shader) (v : ℚ) (s : World) : World := emit (.glUniform1f p v) s

def obj8_set_render_mode (m : RenderMode) (s : World) : World :=
  emit (.obj8_set_render_mode m) s

def obj8_set_render_mode2 (m : RenderMode) (arg : Nat) (s : World) : World :=
  emit (.obj8_set_render_mode2 m arg) s

/-- Texel of the pick target after `obj8_draw_group` with the identifier program: the
frontmost manipulator fragment, if any, overwrites it with its 16-bit identifier. -/
def drawn_texel (drawn : Option Nat) (texel : Nat) : Nat :=
  match drawn with
  | some id => id % 65536
  | none => texel

/-- `obj8_draw_group(obj, NULL, prog, pvm)`. The identifier program writes the pick
texel; the highlight colour written by the paint program is not represented. -/
def obj8_draw_group (p : Shader) (hst : Host) (s : World) : World :=
  { s with
    pick_texel :=
      match p with
      | .resolve_shader => drawn_texel hst.drawn s.pick_texel
      | .paint_shader => s.pick_texel
    trace := s.trace ++ [.obj8_draw_group p] }

/-- `glReadPixels(0, 0, 1, 1, GL_RED, GL_UNSIGNED_SHORT, NULL)` with a pack buffer bound:
the pick texel is copied into the transfer buffer. -/
def glReadPixels (s : World) : World :=
  { s with pbo_data := s.pick_texel, trace := s.trace ++ [.glReadPixels] }

/-- `glUseProgram(0)`. -/
def glUseProgram0 (s : World) : World :=
  gl_call (.glUseProgram 0) (fun gl => { gl with program := none }) s

/-! ## The program -/

/-- `resolve_manip_complete` (lines 96-115). -/
def resolve_manip_complete (hst : Host) (s : World) : Option World :=
  if !s.cursor_xfer then
    some s
  else do
    ASSERT (s.cursor_pbo != 0)
    let s := glBindBuffer s.cursor_pbo s
    let (data, s) := glMapBuffer hst s
    let s :=
      match data with
      | some d => glUnmapBuffer { s with manip_idx := d % 65536 }
      | none => s
    let s := glBindBuffer 0 s
    some { s with cursor_xfer := false }

/-- `is_rev_float_z` (lines 117-122). -/
def is_rev_float_z (xpver : Int) (hst : Host) : Bool :=
  decide (xpver ≥ 12000) || hst.modern_drv != 0 || hst.rev_float_z != 0

/-- `resolve_manip`, lines 133-158: redirect rendering to the pick target, shift the
viewport, set the depth state, clear, draw the manipulator identifiers. -/
def resolve_manip_render (hst : Host) (mouse_x mouse_y : Int) (vp : Viewport) (s : World) :
    Option World := do
  ASSERT (s.cursor_fbo != 0)
  let s := glBindFramebufferEXT s.cursor_fbo s
  let s := glViewport (vp.x - mouse_x) (vp.y - mouse_y) vp.w vp.h s
  let s := glEnable .GL_DEPTH_TEST s
  let s := glDepthMask true s
  let s := if is_rev_float_z s.xpver hst then glClearDepth 0 (glDepthFunc .GREATER s) else s
  let s := glClearColor 1 0 0 1 s
  let s := glClear s
  let s := glClearColor 0 0 0 0 s
  let s := shader_obj_bind .resolve_shader s
  let s := glUniformMatrix4fv .resolve_shader s
  ASSERT s.obj
  let s := obj8_set_render_mode .OBJ8_RENDER_MODE_MANIP_ONLY s
  let s := obj8_draw_group .resolve_shader hst s
  some s

/-- `resolve_manip`, lines 160-164: queue the read of the pick texel into the transfer
buffer. -/
def resolve_manip_issue (s : World) : Option World := do
  ASSERT (s.cursor_pbo != 0)
  let s := glBindBuffer s.cursor_pbo s
  let s := glReadPixels s
  let s := glBindBuffer 0 s
  some { s with cursor_xfer := true }

/-- `resolve_manip`, lines 165-175: put back the depth state, the framebuffer binding and
the viewport. -/
def resolve_manip_restore (hst : Host) (vp : Viewport) (s : World) : World :=
  let s := glDisable .GL_DEPTH_TEST s
  let s := glDepthMask false s
  let s := if is_rev_float_z s.xpver hst then glClearDepth 1 (glDepthFunc .LESS s) else s
  let s := glBindFramebufferEXT (int_to_GLuint hst.fbo) s
  glViewport vp.x vp.y vp.w vp.h s

/-- `resolve_manip` (lines 124-176). -/
def resolve_manip (hst : Host) (mouse_x mouse_y : Int) (s : World) : Option World := do
  let s ← resolve_manip_complete hst s
  match dr_getvi hst.viewport 0 4 with
  | [vp0, vp1, vp2, vp3] =>
    let vp : Viewport := ⟨vp0, vp1, vp2, vp3⟩
    let s ← resolve_manip_render hst mouse_x mouse_y vp s
    let s ← resolve_manip_issue s
    some (resolve_manip_restore hst vp s)
  | _ => none

/-- State of `resolve_manip` at the end of its pick pass (after line 158), before the
readback is queued and the host state is put back. -/
def resolve_manip_pass (hst : Host) (mouse_x mouse_y : Int) (s : World) : Option World := do
  let s ← resolve_manip_complete hst s
  match dr_getvi hst.viewport 0 4 with
  | [vp0, vp1, vp2, vp3] => resolve_manip_render hst mouse_x mouse_y ⟨vp0, vp1, vp2, vp3⟩ s
  | _ => none

/-- The blink alpha of `paint_manip` (lines 194-198) as a function of
`t = now - blink_start_t`. -/
def blink_alpha (t : Nat) : ℚ :=
  let delta_t := t % 1000000
  if delta_t < 500000 then
    (delta_t : ℚ) / 500000
  else
    1 - ((delta_t - 500000 : Nat) : ℚ) / 500000

/-- `microclock()`: the host clock in microseconds, a `uint64_t`. -/
def microclock (hst : Host) : Nat := hst.now % 2 ^ 64

/-- `paint_manip` (lines 178-210). -/
def paint_manip (hst : Host) (s : World) : Option World :=
  let now := microclock hst
  match dr_getvi hst.viewport 0 4 with
  | [vp0, vp1, vp2, vp3] => do
    let s :=
      if s.manip_idx != s.prev_manip_idx || decide (u64_sub now s.last_draw_t > SEC2USEC_0_2) then
        { s with blink_start_t := now, prev_manip_idx := s.manip_idx }
      else s
    let s := { s with last_draw_t := now }
    let alpha := blink_alpha (u64_sub now s.blink_start_t)
    let s := shader_obj_bind .paint_shader s
    let s := glUniformMatrix4fv .paint_shader s
    let s := glUniform1f .paint_shader alpha s
    ASSERT s.obj
    let s := glEnable .GL_BLEND s
    let s := obj8_set_render_mode2 .OBJ8_RENDER_MODE_MANIP_ONLY_ONE s.manip_idx s
    let s := obj8_draw_group .paint_shader hst s
    some (glViewport vp0 vp1 vp2 vp3 s)
  | _ => none

/-- `draw_cb` (lines 212-248); the result is the C return value and the new state. -/
def draw_cb (hst : Host) (s : World) : Option (Int × World) :=
  let mouse_x := hst.mouse_x
  let mouse_y := hst.mouse_y
  match dr_getvi hst.viewport 0 4 with
  | [vp0, vp1, vp2, vp3] =>
    if mouse_x < vp0 || mouse_x > vp0 + vp2 || mouse_y < vp1 || mouse_y > vp1 + vp3 then
      some (1, s)
    else do
      let s := shader_obj_reload_check .resolve_shader s
      let s := shader_obj_reload_check .paint_shader s
      let s ← resolve_manip hst mouse_x mouse_y s
      let s ← if s.manip_idx != UINT16_MAX then paint_manip hst s else some s
      let s := glUseProgram0 s
      some (1, s)
  | _ => none

/-- Handles produced by `glGenTextures`, `glGenFramebuffers` and `glGenBuffers`. -/
structure GenOutcome where
  tex0 : Nat
  tex1 : Nat
  fbo : Nat
  pbo : Nat
  deriving DecidableEq

def glGenTextures (g : GenOutcome) (s : World) : World :=
  { s with cursor_tex := (g.tex0, g.tex1), trace := s.trace ++ [.glGenTextures 2] }

def setup_texture (tex : Nat) (s : World) : World := emit (.setup_texture tex) s

def glGenFramebuffers (g : GenOutcome) (s : World) : World :=
  { s with cursor_fbo := g.fbo, trace := s.trace ++ [.glGenFramebuffers] }

def setup_color_fbo_for_tex (fbo tex depth : Nat) (s : World) : World :=
  emit (.setup_color_fbo_for_tex fbo tex depth) s

def glGenBuffers (g : GenOutcome) (s : World) : World :=
  { s with cursor_pbo := g.pbo, trace := s.trace ++ [.glGenBuffers] }

def glBufferData (size : Nat) (s : World) : World := emit (.glBufferData size) s

/-- `create_cursor_objects` (lines 250-285). -/
def create_cursor_objects (g : GenOutcome) (s : World) : Option World := do
  let s := glGenTextures g s
  VERIFY (s.cursor_tex.1 != 0)
  let s := setup_texture s.cursor_tex.1 s
  let s := setup_texture s.cursor_tex.2 s
  let s := glGenFramebuffers g s
  VERIFY (s.cursor_fbo != 0)
  let s := setup_color_fbo_for_tex s.cursor_fbo s.cursor_tex.1 s.cursor_tex.2 s
  let s := glGenBuffers g s
  VERIFY (s.cursor_pbo != 0)
  let s := glBindBuffer s.cursor_pbo s
  let s := glBufferData 2 s
  let s := glBindBuffer 0 s
  some s

/-- `glDeleteBuffers(1, &buf)`; a deleted buffer that is bound is unbound. -/
def glDeleteBuffers (buf : Nat) (s : World) : World :=
  gl_call (.glDeleteBuffers buf)
    (fun gl => { gl with
      pixel_pack_buffer := if gl.pixel_pack_buffer = buf then 0 else gl.pixel_pack_buffer }) s

/-- `glDeleteFramebuffers(1, &fbo)`; a deleted framebuffer that is bound is unbound. -/
def glDeleteFramebuffers (fbo : Nat) (s : World) : World :=
  gl_call (.glDeleteFramebuffers fbo)
    (fun gl => { gl with framebuffer := if gl.framebuffer = fbo then 0 else gl.framebuffer }) s

def glDeleteTextures (t0 t1 : Nat) (s : World) : World := emit (.glDeleteTextures t0 t1) s

/-- `destroy_cursor_objects` (lines 287-302). -/
def destroy_cursor_objects (s : World) : World :=
  let s :=
    if s.cursor_pbo != 0 then
      { glDeleteBuffers s.cursor_pbo s with cursor_pbo := 0 }
    else s
  let s :=
    if s.cursor_fbo != 0 then
      { glDeleteFramebuffers s.cursor_fbo s with cursor_fbo := 0 }
    else s
  if s.cursor_tex.1 != 0 then
    { glDeleteTextures s.cursor_tex.1 s.cursor_tex.2 s with cursor_tex := (0, 0) }
  else s

/-- The states the program can be in, as far as the handle variables `cursor_tex`,
`cursor_fbo` and `cursor_pbo` are concerned. They start from their file-scope
initialisers (lines 59-61, all zero); `create_cursor_objects` (from `XPluginEnable`),
`destroy_cursor_objects` (from `XPluginDisable`) and `draw_cb` (once per frame) run in any
order and with any outcome of the host and the GPU; every other step of the plugin and of
the host writes none of the three variables. -/
inductive Reachable : World → Prop where
  | init (s : World) :
      s.cursor_tex = (0, 0) → s.cursor_fbo = 0 → s.cursor_pbo = 0 → Reachable s
  | create (g : GenOutcome) (s s' : World) :
      Reachable s → create_cursor_objects g s = some s' → Reachable s'
  | destroy (s : World) : Reachable s → Reachable (destroy_cursor_objects s)
  | draw (hst : Host) (s s' : World) (r : Int) :
      Reachable s → draw_cb hst s = some (r, s') → Reachable s'
  | other (s s' : World) :
      Reachable s → s'.cursor_tex = s.cursor_tex → s'.cursor_fbo = s.cursor_fbo →
      s'.cursor_pbo = s.cursor_pbo → Reachable s'

/-- The external calls that only `paint_manip` makes (the highlight pass). -/
def is_paint_call : Call → Bool
  | .shader_obj_bind .paint_shader => true
  | .glUniformMatrix4fv .paint_shader => true
  | .glUniform1f _ _ => true
  | .glEnable .GL_BLEND => true
  | .obj8_set_render_mode2 _ _ => true
  | .obj8_draw_group .paint_shader => true
  | _ => false

/-- The identifier that the drain of the transfer (`resolve_manip_complete`) leaves in
`manip_idx`: the content of the transfer buffer when a transfer was pending and the
mapping succeeded, else the previous value. -/
def resolved_idx (hst : Host) (s : World) : Nat :=
  if s.cursor_xfer && hst.map_ok then s.pbo_data % 65536 else s.manip_idx

/-- The cursor test of `draw_cb` (line 226): the cursor is off the viewport. -/
def cursor_outside (hst : Host) (x y w h : Int) : Prop :=
  hst.mouse_x < x ∨ hst.mouse_x > x + w ∨ hst.mouse_y < y ∨ hst.mouse_y > y + h

/-- The restart test of `paint_manip` (line 189) for identifier `idx` at the time of the
frame `hst`. -/
def blink_restart (hst : Host) (s : World) (idx : Nat) : Prop :=
  idx ≠ s.prev_manip_idx ∨ u64_sub (microclock hst) s.last_draw_t > SEC2USEC_0_2

instance (hst : Host) (x y w h : Int) : Decidable (cursor_outside hst x y w h) := by
  unfold cursor_outside; infer_instance

instance (hst : Host) (s : World) (idx : Nat) : Decidable (blink_restart hst s idx) := by
  unfold blink_restart; infer_instance

/-- The values given to the `alpha` uniform by a sequence of calls. -/
def alpha_uploads (cs : List Call) : List ℚ :=
  cs.filterMap fun c =>
    match c with
    | .glUniform1f _ v => some v
    | _ => none

/-- Whether a sequence of calls contains the readback of a pick pass. -/
def has_pick_pass (cs : List Call) : Bool := cs.contains .glReadPixels

/-- A sequence of frames through `draw_cb`; the second component is the time of the last
frame that performed a pick pass. -/
def run_frames : List Host → World × Option Nat → Option (World × Option Nat)
  | [], p => some p
  | hst :: rest, (s, t) =>
    match draw_cb hst s with
    | none => none
    | some (_, s') =>
      run_frames rest
        (s', if has_pick_pass (s'.trace.drop s.trace.length) then some (microclock hst) else t)

/-- What a run of frames followed by one more frame shows about the blink restart. -/
structure BlinkReport where
  /-- time of the last frame of the run that performed a pick pass -/
  last_pick_t : Option Nat
  /-- time of the final frame -/
  now : Nat
  /-- `manip_idx` when the final frame starts (resolved on the frame before it) -/
  idx_before : Nat
  /-- `prev_manip_idx` when the final frame starts -/
  prev_manip_idx : Nat
  /-- `last_draw_t` when the final frame starts -/
  last_draw_t : Nat
  /-- `blink_start_t` when the final frame starts -/
  blink_start_before : Nat
  /-- `manip_idx` after the final frame -/
  idx_after : Nat
  /-- `blink_start_t` after the final frame -/
  blink_start_after : Nat
  deriving DecidableEq

/-- Run `frames` from `s`, then the frame `last`, and report. -/
def blink_report (frames : List Host) (last : Host) (s : World) : Option BlinkReport :=
  (run_frames frames (s, none)).bind fun p =>
    (draw_cb last p.1).map fun r =>
      { last_pick_t := p.2, now := microclock last, idx_before := p.1.manip_idx,
        prev_manip_idx := p.1.prev_manip_idx, last_draw_t := p.1.last_draw_t,
        blink_start_before := p.1.blink_start_t, idx_after := r.2.manip_idx,
        blink_start_after := r.2.blink_start_t }

/-- Window coordinates that the OpenGL viewport transformation gives to a point with
normalised device coordinates `nd`. -/
def window_coord (vp : Viewport) (nd : ℚ × ℚ) : ℚ × ℚ :=
  ((nd.1 + 1) * ((vp.w : ℚ) / 2) + vp.x, (nd.2 + 1) * ((vp.h : ℚ) / 2) + vp.y)

/-- The pixel (or texel) that contains a window coordinate. -/
def pixel_of (p : ℚ × ℚ) : Int × Int := (⌊p.1⌋, ⌊p.2⌋)

/-! ## Example states -/

/-- OpenGL context as the host leaves it for a window-phase callback: host framebuffer
`0`, an 800x600 viewport, depth test off, `LESS` / clear-to-1. -/
def gl0 : GLState :=
  { framebuffer := 0, viewport := ⟨0, 0, 800, 600⟩, depth_test := false, depth_mask := false,
    depth_func := .LESS, clear_depth := 1, clear_color := (0, 0, 0, 0), blend := false,
    pixel_pack_buffer := 0, program := none }

/-- State at load time (the initialisers of the file-scope variables), X-Plane 11. -/
def world0 : World :=
  { cursor_tex := (0, 0), cursor_fbo := 0, cursor_pbo := 0, cursor_xfer := false,
    manip_idx := 65535, last_draw_t := 0, blink_start_t := 0, prev_manip_idx := 65535,
    obj := false, xpver := 11550, gl := gl0, pick_texel := 0, pbo_data := 0, trace := [] }

/-- State after a successful `XPluginEnable`: the GPU objects exist and the object file
is loaded. -/
def world1 : World :=
  { world0 with cursor_tex := (1, 2), cursor_fbo := 1, cursor_pbo := 1, obj := true }

/-- A frame with the cursor at (400, 300) inside an 800x600 viewport. -/
def host0 : Host :=
  { mouse_x := 400, mouse_y := 300, viewport := [0, 0, 800, 600], fbo := 0,
    rev_float_z := 0, modern_drv := 0, now := 1000000, map_ok := true, drawn := none }

/-- As `world1`, with a transfer in flight whose buffer holds identifier 42. -/
def world_pending : World := { world1 with cursor_xfer := true, pbo_data := 42 }

/-- As `host0`, but the buffer mapping fails. -/
def host_map_fail : Host := { host0 with map_ok := false }

/-- As `host0`, with manipulator 42 under the cursor. -/
def host_hit42 : Host := { host0 with drawn := some 42 }

/-- A frame at time `t` (microseconds) with the cursor inside the viewport; `d` is what
the identifier draw writes under the cursor. -/
def frame_at (t : Nat) (d : Option Nat) : Host := { host0 with now := t, drawn := d }

/-- Highlight on manipulator 42 since 500,000 us, last drawn at 900,000 us; the pending
transfer holds identifier 7. -/
def world_42_to_7 : World :=
  { world1 with
    cursor_xfer := true
    pbo_data := 7
    manip_idx := 42
    prev_manip_idx := 42
    last_draw_t := 900000
    blink_start_t := 500000 }

/-- A frame with the cursor at (900, 300), right of the 800x600 viewport. -/
def host_outside : Host := { host0 with mouse_x := 900 }

/-- As `world1`, but the depth test is on and the depth function is `LEQUAL` when the
callback is entered. -/
def world_depth_on : World :=
  { world1 with gl := { gl0 with depth_test := true, depth_func := .LEQUAL } }

/-- Outcome of the allocations in which only the depth texture handle is 0. -/
def gen_no_depth : GenOutcome := { tex0 := 1, tex1 := 0, fbo := 1, pbo := 1 }

/-- Outcome of the allocations in which all four handles are non-zero. -/
def gen_all : GenOutcome := { tex0 := 1, tex1 := 2, fbo := 1, pbo := 1 }

/-- State after `create_cursor_objects` ran from the load-time state with `gen_all`. -/
def world_created : World := (create_cursor_objects gen_all world0).getD world0

/-! ## How the external calls act on each field -/

@[simp]
theorem emit_fields (c : Call) (s : World) :
    (emit c s).cursor_tex = s.cursor_tex ∧ (emit c s).cursor_fbo = s.cursor_fbo ∧
    (emit c s).cursor_pbo = s.cursor_pbo ∧ (emit c s).cursor_xfer = s.cursor_xfer ∧
    (emit c s).manip_idx = s.manip_idx ∧ (emit c s).last_draw_t = s.last_draw_t ∧
    (emit c s).blink_start_t = s.blink_start_t ∧
    (emit c s).prev_manip_idx = s.prev_manip_idx ∧ (emit c s).obj = s.obj ∧
    (emit c s).xpver = s.xpver ∧ (emit c s).gl = s.gl ∧
    (emit c s).pick_texel = s.pick_texel ∧ (emit c s).pbo_data = s.pbo_data ∧
    (emit c s).trace = s.trace ++ [c] :=
  ⟨rfl, rfl, rfl, rfl, rfl, rfl, rfl, rfl, rfl, rfl, rfl, rfl, rfl, rfl⟩

@[simp]
theorem gl_call_fields (c : Call) (f : GLState → GLState) (s : World) :
    (gl_call c f s).cursor_tex = s.cursor_tex ∧ (gl_call c f s).cursor_fbo = s.cursor_fbo ∧
    (gl_call c f s).cursor_pbo = s.cursor_pbo ∧ (gl_call c f s).cursor_xfer = s.cursor_xfer ∧
    (gl_call c f s).manip_idx = s.manip_idx ∧ (gl_call c f s).last_draw_t = s.last_draw_t ∧
    (gl_call c f s).blink_start_t = s.blink_start_t ∧
    (gl_call c f s).prev_manip_idx = s.prev_manip_idx ∧ (gl_call c f s).obj = s.obj ∧
    (gl_call c f s).xpver = s.xpver ∧ (gl_call c f s).gl = f s.gl ∧
    (gl_call c f s).pick_texel = s.pick_texel ∧ (gl_call c f s).pbo_data = s.pbo_data ∧
    (gl_call c f s).trace = s.trace ++ [c] :=
  ⟨rfl, rfl, rfl, rfl, rfl, rfl, rfl, rfl, rfl, rfl, rfl, rfl, rfl, rfl⟩

@[simp]
theorem glClear_fields (s : World) :
    (glClear s).cursor_tex = s.cursor_tex ∧ (glClear s).cursor_fbo = s.cursor_fbo ∧
    (glClear s).cursor_pbo = s.cursor_pbo ∧ (glClear s).cursor_xfer = s.cursor_xfer ∧
    (glClear s).manip_idx = s.manip_idx ∧ (glClear s).last_draw_t = s.last_draw_t ∧
    (glClear s).blink_start_t = s.blink_start_t ∧
    (glClear s).prev_manip_idx = s.prev_manip_idx ∧ (glClear s).obj = s.obj ∧
    (glClear s).xpver = s.xpver ∧ (glClear s).gl = s.gl ∧
    (glClear s).pick_texel = unorm16 s.gl.clear_color.1 ∧ (glClear s).pbo_data = s.pbo_data ∧
    (glClear s).trace = s.trace ++ [.glClear] :=
  ⟨rfl, rfl, rfl, rfl, rfl, rfl, rfl, rfl, rfl, rfl, rfl, rfl, rfl, rfl⟩

@[simp]
theorem obj8_draw_group_fields (p : Shader) (hst : Host) (s : World) :
    (obj8_draw_group p hst s).cursor_tex = s.cursor_tex ∧
    (obj8_draw_group p hst s).cursor_fbo = s.cursor_fbo ∧
    (obj8_draw_group p hst s).cursor_pbo = s.cursor_pbo ∧
    (obj8_draw_group p hst s).cursor_xfer = s.cursor_xfer ∧
    (obj8_draw_group p hst s).manip_idx = s.manip_idx ∧
    (obj8_draw_group p hst s).last_draw_t = s.last_draw_t ∧
    (obj8_draw_group p hst s).blink_start_t = s.blink_start_t ∧
    (obj8_draw_group p hst s).prev_manip_idx = s.prev_manip_idx ∧
    (obj8_draw_group p hst s).obj = s.obj ∧
    (obj8_draw_group p hst s).xpver = s.xpver ∧ (obj8_draw_group p hst s).gl = s.gl ∧
    (obj8_draw_group p hst s).pbo_data = s.pbo_data ∧
    (obj8_draw_group p hst s).trace = s.trace ++ [.obj8_draw_group p] :=
  ⟨rfl, rfl, rfl, rfl, rfl, rfl, rfl, rfl, rfl, rfl, rfl, rfl, rfl⟩

@[simp]
theorem obj8_draw_group_texel (hst : Host) (s : World) :
    (obj8_draw_group .resolve_shader hst s).pick_texel = drawn_texel hst.drawn s.pick_texel ∧
    (obj8_draw_group .paint_shader hst s).pick_texel = s.pick_texel :=
  ⟨rfl, rfl⟩

@[simp]
theorem glReadPixels_fields (s : World) :
    (glReadPixels s).cursor_tex = s.cursor_tex ∧ (glReadPixels s).cursor_fbo = s.cursor_fbo ∧
    (glReadPixels s).cursor_pbo = s.cursor_pbo ∧
    (glReadPixels s).cursor_xfer = s.cursor_xfer ∧
    (glReadPixels s).manip_idx = s.manip_idx ∧ (glReadPixels s).last_draw_t = s.last_draw_t ∧
    (glReadPixels s).blink_start_t = s.blink_start_t ∧
    (glReadPixels s).prev_manip_idx = s.prev_manip_idx ∧ (glReadPixels s).obj = s.obj ∧
    (glReadPixels s).xpver = s.xpver ∧ (glReadPixels s).gl = s.gl ∧
    (glReadPixels s).pick_texel = s.pick_texel ∧ (glReadPixels s).pbo_data = s.pick_texel ∧
    (glReadPixels s).trace = s.trace ++ [.glReadPixels] :=
  ⟨rfl, rfl, rfl, rfl, rfl, rfl, rfl, rfl, rfl, rfl, rfl, rfl, rfl, rfl⟩

theorem unorm16_one : unorm16 1 = 65535 := by
  simp [unorm16]

/-! ## The steps of `resolve_manip` -/

theorem resolve_manip_complete_spec (hst : Host) (s : World) (hpbo : s.cursor_pbo ≠ 0) :
    ∃ sC, resolve_manip_complete hst s = some sC ∧
      sC.manip_idx = (if s.cursor_xfer && hst.map_ok then s.pbo_data % 65536 else s.manip_idx) ∧
      sC.cursor_xfer = false ∧
      sC.cursor_tex = s.cursor_tex ∧ sC.cursor_fbo = s.cursor_fbo ∧
      sC.cursor_pbo = s.cursor_pbo ∧ sC.obj = s.obj ∧ sC.xpver = s.xpver ∧
      sC.last_draw_t = s.last_draw_t ∧ sC.blink_start_t = s.blink_start_t ∧
      sC.prev_manip_idx = s.prev_manip_idx ∧
      sC.pick_texel = s.pick_texel ∧ sC.pbo_data = s.pbo_data ∧
      sC.gl.framebuffer = s.gl.framebuffer ∧ sC.gl.viewport = s.gl.viewport ∧
      sC.gl.depth_test = s.gl.depth_test ∧ sC.gl.depth_mask = s.gl.depth_mask ∧
      sC.gl.depth_func = s.gl.depth_func ∧ sC.gl.clear_depth = s.gl.clear_depth ∧
      ∃ cs, sC.trace = s.trace ++ cs ∧ ∀ c ∈ cs, is_paint_call c = false := by
  cases hx : s.cursor_xfer <;> cases hm : hst.map_ok <;>
    simp [resolve_manip_complete, hx, hm, hpbo, ASSERT, glBindBuffer, glMapBuffer,
      glUnmapBuffer, is_paint_call]

theorem resolve_manip_render_spec (hst : Host) (mx my : Int) (vp : Viewport) (s : World)
    (hfbo : s.cursor_fbo ≠ 0) (hobj : s.obj = true) :
    ∃ sR, resolve_manip_render hst mx my vp s = some sR ∧
      sR.manip_idx = s.manip_idx ∧ sR.cursor_xfer = s.cursor_xfer ∧
      sR.cursor_tex = s.cursor_tex ∧ sR.cursor_fbo = s.cursor_fbo ∧
      sR.cursor_pbo = s.cursor_pbo ∧ sR.obj = s.obj ∧ sR.xpver = s.xpver ∧
      sR.last_draw_t = s.last_draw_t ∧ sR.blink_start_t = s.blink_start_t ∧
      sR.prev_manip_idx = s.prev_manip_idx ∧
      sR.pick_texel = drawn_texel hst.drawn 65535 ∧ sR.pbo_data = s.pbo_data ∧
      sR.gl.framebuffer = s.cursor_fbo ∧
      sR.gl.viewport = ⟨vp.x - mx, vp.y - my, vp.w, vp.h⟩ ∧
      sR.gl.depth_test = true ∧ sR.gl.depth_mask = true ∧
      sR.gl.depth_func = (if is_rev_float_z s.xpver hst then .GREATER else s.gl.depth_func) ∧
      sR.gl.clear_depth = (if is_rev_float_z s.xpver hst then 0 else s.gl.clear_depth) ∧
      ∃ cs, sR.trace = s.trace ++ cs ∧ ∀ c ∈ cs, is_paint_call c = false := by
  cases hr : is_rev_float_z s.xpver hst <;>
    simp [resolve_manip_render, hfbo, hobj, ASSERT, glBindFramebufferEXT, glViewport, glEnable,
      glDepthMask, glDepthFunc, glClearDepth, glClearColor, shader_obj_bind,
      glUniformMatrix4fv, obj8_set_render_mode, unorm16_one, hr, is_paint_call]

theorem resolve_manip_issue_spec (s : World) (hpbo : s.cursor_pbo ≠ 0) :
    ∃ sI, resolve_manip_issue s = some sI ∧
      sI.manip_idx = s.manip_idx ∧ sI.cursor_xfer = true ∧
      sI.cursor_tex = s.cursor_tex ∧ sI.cursor_fbo = s.cursor_fbo ∧
      sI.cursor_pbo = s.cursor_pbo ∧ sI.obj = s.obj ∧ sI.xpver = s.xpver ∧
      sI.last_draw_t = s.last_draw_t ∧ sI.blink_start_t = s.blink_start_t ∧
      sI.prev_manip_idx = s.prev_manip_idx ∧
      sI.pick_texel = s.pick_texel ∧ sI.pbo_data = s.pick_texel ∧
      sI.gl.framebuffer = s.gl.framebuffer ∧ sI.gl.viewport = s.gl.viewport ∧
      sI.gl.depth_test = s.gl.depth_test ∧ sI.gl.depth_mask = s.gl.depth_mask ∧
      sI.gl.depth_func = s.gl.depth_func ∧ sI.gl.clear_depth = s.gl.clear_depth ∧
      ∃ cs, sI.trace = s.trace ++ cs ∧ ∀ c ∈ cs, is_paint_call c = false := by
  simp [resolve_manip_issue, hpbo, ASSERT, glBindBuffer, is_paint_call]

theorem resolve_manip_restore_spec (hst : Host) (vp : Viewport) (s : World) :
    (resolve_manip_restore hst vp s).manip_idx = s.manip_idx ∧
      (resolve_manip_restore hst vp s).cursor_xfer = s.cursor_xfer ∧
      (resolve_manip_restore hst vp s).cursor_tex = s.cursor_tex ∧
      (resolve_manip_restore hst vp s).cursor_fbo = s.cursor_fbo ∧
      (resolve_manip_restore hst vp s).cursor_pbo = s.cursor_pbo ∧
      (resolve_manip_restore hst vp s).obj = s.obj ∧
      (resolve_manip_restore hst vp s).xpver = s.xpver ∧
      (resolve_manip_restore hst vp s).last_draw_t = s.last_draw_t ∧
      (resolve_manip_restore hst vp s).blink_start_t = s.blink_start_t ∧
      (resolve_manip_restore hst vp s).prev_manip_idx = s.prev_manip_idx ∧
      (resolve_manip_restore hst vp s).pick_texel = s.pick_texel ∧
      (resolve_manip_restore hst vp s).pbo_data = s.pbo_data ∧
      (resolve_manip_restore hst vp s).gl.framebuffer = int_to_GLuint hst.fbo ∧
      (resolve_manip_restore hst vp s).gl.viewport = vp ∧
      (resolve_manip_restore hst vp s).gl.depth_test = false ∧
      (resolve_manip_restore hst vp s).gl.depth_mask = false ∧
      (resolve_manip_restore hst vp s).gl.depth_func =
        (if is_rev_float_z s.xpver hst then .LESS else s.gl.depth_func) ∧
      (resolve_manip_restore hst vp s).gl.clear_depth =
        (if is_rev_float_z s.xpver hst then 1 else s.gl.clear_depth) ∧
      ∃ cs, (resolve_manip_restore hst vp s).trace = s.trace ++ cs ∧
        ∀ c ∈ cs, is_paint_call c = false := by
  cases hr : is_rev_float_z s.xpver hst <;>
    simp [resolve_manip_restore, glDisable, glDepthMask, glDepthFunc, glClearDepth,
      glBindFramebufferEXT, glViewport, hr, is_paint_call]

theorem resolve_manip_spec (hst : Host) (mx my : Int) (s : World) (x y w h : Int)
    (hfbo : s.cursor_fbo ≠ 0) (hpbo : s.cursor_pbo ≠ 0) (hobj : s.obj = true)
    (hvp : dr_getvi hst.viewport 0 4 = [x, y, w, h]) :
    ∃ s', resolve_manip hst mx my s = some s' ∧
      s'.manip_idx = (if s.cursor_xfer && hst.map_ok then s.pbo_data % 65536 else s.manip_idx) ∧
      s'.cursor_xfer = true ∧
      s'.cursor_tex = s.cursor_tex ∧ s'.cursor_fbo = s.cursor_fbo ∧
      s'.cursor_pbo = s.cursor_pbo ∧ s'.obj = s.obj ∧ s'.xpver = s.xpver ∧
      s'.last_draw_t = s.last_draw_t ∧ s'.blink_start_t = s.blink_start_t ∧
      s'.prev_manip_idx = s.prev_manip_idx ∧
      s'.pick_texel = drawn_texel hst.drawn 65535 ∧
      s'.pbo_data = drawn_texel hst.drawn 65535 ∧
      s'.gl.framebuffer = int_to_GLuint hst.fbo ∧ s'.gl.viewport = ⟨x, y, w, h⟩ ∧
      s'.gl.depth_test = false ∧ s'.gl.depth_mask = false ∧
      s'.gl.depth_func = (if is_rev_float_z s.xpver hst then .LESS else s.gl.depth_func) ∧
      s'.gl.clear_depth = (if is_rev_float_z s.xpver hst then 1 else s.gl.clear_depth) ∧
      ∃ cs, s'.trace = s.trace ++ cs ∧ ∀ c ∈ cs, is_paint_call c = false := by
  obtain ⟨sC, hC, c1, c2, c3, c4, c5, c6, c7, c8, c9, c10, c11, c12, c13, c14, c15, c16, c17,
    c18, csC, hcsC, hpC⟩ := resolve_manip_complete_spec hst s hpbo
  obtain ⟨sR, hR, r1, r2, r3, r4, r5, r6, r7, r8, r9, r10, r11, r12, r13, r14, r15, r16, r17,
    r18, csR, hcsR, hpR⟩ :=
    resolve_manip_render_spec hst mx my ⟨x, y, w, h⟩ sC (by rw [c4]; exact hfbo)
      (by rw [c6]; exact hobj)
  obtain ⟨sI, hI, i1, i2, i3, i4, i5, i6, i7, i8, i9, i10, i11, i12, i13, i14, i15, i16, i17,
    i18, csI, hcsI, hpI⟩ := resolve_manip_issue_spec sR (by rw [r5, c5]; exact hpbo)
  obtain ⟨t1, t2, t3, t4, t5, t6, t7, t8, t9, t10, t11, t12, t13, t14, t15, t16, t17, t18,
    csT, hcsT, hpT⟩ := resolve_manip_restore_spec hst ⟨x, y, w, h⟩ sI
  refine ⟨resolve_manip_restore hst ⟨x, y, w, h⟩ sI, ?_, ?_⟩
  · simp [resolve_manip, hC, hvp, hR, hI]
  · refine ⟨by rw [t1, i1, r1, c1], by rw [t2, i2], by rw [t3, i3, r3, c3],
      by rw [t4, i4, r4, c4], by rw [t5, i5, r5, c5], by rw [t6, i6, r6, c6],
      by rw [t7, i7, r7, c7], by rw [t8, i8, r8, c8], by rw [t9, i9, r9, c9],
      by rw [t10, i10, r10, c10], by rw [t11, i11, r11], by rw [t12, i12, r11],
      t13, t14, t15, t16, ?_, ?_, ?_⟩
    · rw [t17, i7, r7, c7, i17, r17, c7, c17]
      by_cases hr : is_rev_float_z s.xpver hst <;> simp [hr]
    · rw [t18, i7, r7, c7, i18, r18, c7, c18]
      by_cases hr : is_rev_float_z s.xpver hst <;> simp [hr]
    · refine ⟨csC ++ (csR ++ (csI ++ csT)), ?_, ?_⟩
      · rw [hcsT, hcsI, hcsR, hcsC]; simp
      · intro c hc
        simp only [List.mem_append] at hc
        rcases hc with hc | hc | hc | hc
        · exact hpC c hc
        · exact hpR c hc
        · exact hpI c hc
        · exact hpT c hc

/-! ## `paint_manip` -/

theorem paint_manip_spec (hst : Host) (s : World) (x y w h : Int)
    (hobj : s.obj = true) (hvp : dr_getvi hst.viewport 0 4 = [x, y, w, h]) :
    ∃ s', paint_manip hst s = some s' ∧
      s'.manip_idx = s.manip_idx ∧ s'.cursor_xfer = s.cursor_xfer ∧
      s'.last_draw_t = microclock hst ∧
      s'.blink_start_t =
        (if s.manip_idx ≠ s.prev_manip_idx ∨ u64_sub (microclock hst) s.last_draw_t > SEC2USEC_0_2
          then microclock hst else s.blink_start_t) ∧
      s'.prev_manip_idx =
        (if s.manip_idx ≠ s.prev_manip_idx ∨ u64_sub (microclock hst) s.last_draw_t > SEC2USEC_0_2
          then s.manip_idx else s.prev_manip_idx) ∧
      s'.trace = s.trace ++
        [.shader_obj_bind .paint_shader, .glUniformMatrix4fv .paint_shader,
          .glUniform1f .paint_shader (blink_alpha (u64_sub (microclock hst) s'.blink_start_t)),
          .glEnable .GL_BLEND,
          .obj8_set_render_mode2 .OBJ8_RENDER_MODE_MANIP_ONLY_ONE s.manip_idx,
          .obj8_draw_group .paint_shader, .glViewport x y w h] := by
  by_cases hc : s.manip_idx ≠ s.prev_manip_idx ∨
      u64_sub (microclock hst) s.last_draw_t > SEC2USEC_0_2
  · have hc' := hc
    simp only [ne_eq, gt_iff_lt] at hc'
    simp [paint_manip, hvp, hobj, ASSERT, shader_obj_bind, glUniformMatrix4fv, glUniform1f,
      glEnable, obj8_set_render_mode2, glViewport, hc']
  · have hc' := hc
    simp only [ne_eq, gt_iff_lt] at hc'
    simp [paint_manip, hvp, hobj, ASSERT, shader_obj_bind, glUniformMatrix4fv, glUniform1f,
      glEnable, obj8_set_render_mode2, glViewport, hc']

/-! ## Auxiliary facts -/

theorem drawn_texel_lt (d : Option Nat) : drawn_texel d 65535 < 65536 := by
  cases d with
  | none => simp [drawn_texel]
  | some id => simpa [drawn_texel] using Nat.mod_lt id (by norm_num)


theorem blink_alpha_eq (t : Nat) :
    blink_alpha t =
      if t % 1000000 < 500000 then ((t % 1000000 : Nat) : ℚ) / 500000
      else 2 - ((t % 1000000 : Nat) : ℚ) / 500000 := by
  unfold blink_alpha
  by_cases hlt : t % 1000000 < 500000
  · simp [hlt]
  · simp only [hlt, if_false]
    rw [Nat.cast_sub (by omega)]
    push_cast
    ring


theorem u64_sub_self (hst : Host) : u64_sub (microclock hst) (microclock hst) = 0 := by
  have h : microclock hst < 2 ^ 64 := Nat.mod_lt _ (by norm_num)
  unfold u64_sub
  rw [Nat.mod_eq_of_lt h, Nat.add_sub_cancel' (Nat.le_of_lt h), Nat.mod_self]

theorem blink_alpha_zero : blink_alpha 0 = 0 := by
  norm_num [blink_alpha]

theorem resolve_manip_pass_spec (hst : Host) (mx my : Int) (s : World) (x y w h : Int)
    (hfbo : s.cursor_fbo ≠ 0) (hpbo : s.cursor_pbo ≠ 0) (hobj : s.obj = true)
    (hvp : dr_getvi hst.viewport 0 4 = [x, y, w, h]) :
    ∃ sP, resolve_manip_pass hst mx my s = some sP ∧
      sP.gl.framebuffer = s.cursor_fbo ∧ sP.gl.viewport = ⟨x - mx, y - my, w, h⟩ ∧
      sP.gl.depth_test = true ∧ sP.gl.depth_mask = true ∧
      sP.gl.depth_func = (if is_rev_float_z s.xpver hst then .GREATER else s.gl.depth_func) ∧
      sP.gl.clear_depth = (if is_rev_float_z s.xpver hst then 0 else s.gl.clear_depth) := by
  obtain ⟨sC, hC, c1, c2, c3, c4, c5, c6, c7, c8, c9, c10, c11, c12, c13, c14, c15, c16, c17,
    c18, -⟩ := resolve_manip_complete_spec hst s hpbo
  obtain ⟨sR, hR, r1, r2, r3, r4, r5, r6, r7, r8, r9, r10, r11, r12, r13, r14, r15, r16, r17,
    r18, -⟩ :=
    resolve_manip_render_spec hst mx my ⟨x, y, w, h⟩ sC (by rw [c4]; exact hfbo)
      (by rw [c6]; exact hobj)
  refine ⟨sR, by simp [resolve_manip_pass, hC, hvp, hR], by rw [r13, c4], r14, r15, r16,
    by rw [r17, c7, c17], by rw [r18, c7, c18]⟩

/-! ## `draw_cb` -/

theorem draw_cb_outside (hst : Host) (s : World) (x y w h : Int)
    (hvp : dr_getvi hst.viewport 0 4 = [x, y, w, h])
    (hout : cursor_outside hst x y w h) :
    draw_cb hst s = some (1, s) := by
  have hc : (decide (hst.mouse_x < x) || decide (hst.mouse_x > x + w) ||
      decide (hst.mouse_y < y) || decide (hst.mouse_y > y + h)) = true := by
    simpa [cursor_outside, or_assoc] using hout
  simp only [draw_cb, hvp, hc, if_true]

theorem draw_cb_inside (hst : Host) (s : World) (x y w h : Int)
    (hvp : dr_getvi hst.viewport 0 4 = [x, y, w, h])
    (hin : ¬cursor_outside hst x y w h) :
    draw_cb hst s =
      (resolve_manip hst hst.mouse_x hst.mouse_y
        (shader_obj_reload_check .paint_shader
          (shader_obj_reload_check .resolve_shader s))).bind fun sR =>
        if sR.manip_idx != UINT16_MAX then
          (paint_manip hst sR).bind fun sP => some (1, glUseProgram0 sP)
        else some (1, glUseProgram0 sR) := by
  have hc : (decide (hst.mouse_x < x) || decide (hst.mouse_x > x + w) ||
      decide (hst.mouse_y < y) || decide (hst.mouse_y > y + h)) = false := by
    rw [← Bool.not_eq_true]
    simpa [cursor_outside, or_assoc] using hin
  simp only [draw_cb, hvp, hc, Bool.false_eq_true, if_false]
  rfl

theorem alpha_uploads_no_paint (cs : List Call) (h : ∀ c ∈ cs, is_paint_call c = false) :
    alpha_uploads cs = [] := by
  unfold alpha_uploads
  rw [List.filterMap_eq_nil_iff]
  intro c hc
  have := h c hc
  cases c <;> simp_all [is_paint_call]

theorem draw_cb_inside_spec (hst : Host) (s : World) (x y w h : Int)
    (hfbo : s.cursor_fbo ≠ 0) (hpbo : s.cursor_pbo ≠ 0) (hobj : s.obj = true)
    (hvp : dr_getvi hst.viewport 0 4 = [x, y, w, h])
    (hin : ¬cursor_outside hst x y w h) :
    ∃ s' cs, draw_cb hst s = some (1, s') ∧ s'.trace = s.trace ++ cs ∧
      s'.manip_idx = resolved_idx hst s ∧
      (resolved_idx hst s = UINT16_MAX →
        (∀ c ∈ cs, is_paint_call c = false) ∧ s'.prev_manip_idx = s.prev_manip_idx ∧
          s'.last_draw_t = s.last_draw_t ∧ s'.blink_start_t = s.blink_start_t) ∧
      (resolved_idx hst s ≠ UINT16_MAX →
        (∃ c ∈ cs, is_paint_call c = true) ∧ s'.last_draw_t = microclock hst ∧
          s'.blink_start_t =
            (if blink_restart hst s (resolved_idx hst s) then microclock hst
              else s.blink_start_t) ∧
          s'.prev_manip_idx =
            (if blink_restart hst s (resolved_idx hst s) then resolved_idx hst s
              else s.prev_manip_idx) ∧
          alpha_uploads cs = [blink_alpha (u64_sub (microclock hst) s'.blink_start_t)]) := by
  obtain ⟨sR, hsR, r1, r2, r3, r4, r5, r6, r7, r8, r9, r10, r11, r12, r13, r14, r15, r16, r17,
    r18, csR, hcsR, hpR⟩ :=
    resolve_manip_spec hst hst.mouse_x hst.mouse_y
      (shader_obj_reload_check .paint_shader (shader_obj_reload_check .resolve_shader s))
      x y w h (by simpa [shader_obj_reload_check] using hfbo)
      (by simpa [shader_obj_reload_check] using hpbo)
      (by simpa [shader_obj_reload_check] using hobj) hvp
  simp only [shader_obj_reload_check, emit_fields] at r1 r8 r9 r10 hcsR
  have hidx : sR.manip_idx = resolved_idx hst s := r1
  have hnoalpha := alpha_uploads_no_paint csR hpR
  rw [draw_cb_inside hst s x y w h hvp hin, hsR]
  by_cases hnone : resolved_idx hst s = UINT16_MAX
  · refine ⟨glUseProgram0 sR,
      [.shader_obj_reload_check .resolve_shader, .shader_obj_reload_check .paint_shader] ++
        csR ++ [.glUseProgram 0], ?_, ?_, ?_, ?_, ?_⟩
    · simp [hidx, hnone]
    · simp [glUseProgram0, hcsR]
    · simp [glUseProgram0, hidx]
    · intro _
      refine ⟨?_, by simp [glUseProgram0, r10], by simp [glUseProgram0, r8],
        by simp [glUseProgram0, r9]⟩
      intro c hc
      simp only [List.mem_append, List.mem_cons, List.mem_singleton, List.not_mem_nil,
        or_false] at hc
      rcases hc with ((hc | hc) | hc) | hc
      · rw [hc]; rfl
      · rw [hc]; rfl
      · exact hpR c hc
      · rw [hc]; rfl
    · intro hne; exact absurd hnone hne
  · obtain ⟨sP, hsP, p1, p2, p3, p4, p5, p6⟩ :=
      paint_manip_spec hst sR x y w h (by rw [r6]; simpa [shader_obj_reload_check] using hobj) hvp
    have hcond : (sR.manip_idx ≠ sR.prev_manip_idx ∨
        u64_sub (microclock hst) sR.last_draw_t > SEC2USEC_0_2) ↔
        blink_restart hst s (resolved_idx hst s) := by
      unfold blink_restart; rw [hidx, r10, r8]
    simp only [hcond] at p4 p5
    simp only [hidx, r9, r10] at p4 p5 p6
    refine ⟨glUseProgram0 sP, ([.shader_obj_reload_check .resolve_shader,
        .shader_obj_reload_check .paint_shader] ++ csR) ++
        ([.shader_obj_bind .paint_shader, .glUniformMatrix4fv .paint_shader,
          .glUniform1f .paint_shader (blink_alpha (u64_sub (microclock hst) sP.blink_start_t)),
          .glEnable .GL_BLEND,
          .obj8_set_render_mode2 .OBJ8_RENDER_MODE_MANIP_ONLY_ONE (resolved_idx hst s),
          .obj8_draw_group .paint_shader, .glViewport x y w h] ++ [.glUseProgram 0]),
        ?_, ?_, ?_, ?_, ?_⟩
    · simp [hidx, hnone, hsP]
    · simp [glUseProgram0, p6, hcsR]
    · simp [glUseProgram0, p1, hidx]
    · intro he; exact absurd he hnone
    · intro _
      refine ⟨⟨.obj8_draw_group .paint_shader, by simp, rfl⟩, by simp [glUseProgram0, p3],
        by simp [glUseProgram0, p4], by simp [glUseProgram0, p5], ?_⟩
      simp only [alpha_uploads, List.filterMap_append] at hnoalpha ⊢
      rw [hnoalpha]
      simp [glUseProgram0]

/-! ## The handle variables along a run -/

theorem resolve_manip_complete_tex (hst : Host) (s sC : World)
    (h : resolve_manip_complete hst s = some sC) : sC.cursor_tex = s.cursor_tex := by
  by_cases hpbo : s.cursor_pbo = 0
  · cases hx : s.cursor_xfer
    · simp [resolve_manip_complete, hx] at h
      rw [← h]
    · simp [resolve_manip_complete, hx, ASSERT, hpbo] at h
  · obtain ⟨sC', hC', -, -, c3, -⟩ := resolve_manip_complete_spec hst s hpbo
    rw [h] at hC'
    cases hC'
    exact c3

theorem resolve_manip_render_tex (hst : Host) (mx my : Int) (vp : Viewport)
    (s sR : World) (h : resolve_manip_render hst mx my vp s = some sR) :
    sR.cursor_tex = s.cursor_tex := by
  by_cases hfbo : s.cursor_fbo = 0
  · simp [resolve_manip_render, ASSERT, hfbo] at h
  · cases hobj : s.obj
    · exfalso
      cases hr : is_rev_float_z s.xpver hst <;>
        simp [resolve_manip_render, ASSERT, hfbo, hobj, hr, glBindFramebufferEXT, glViewport,
          glEnable, glDepthMask, glDepthFunc, glClearDepth, glClearColor, shader_obj_bind,
          glUniformMatrix4fv] at h
    · obtain ⟨sR', hR', -, -, r3, -⟩ := resolve_manip_render_spec hst mx my vp s hfbo hobj
      rw [h] at hR'
      cases hR'
      exact r3

theorem resolve_manip_issue_tex (s sI : World) (h : resolve_manip_issue s = some sI) :
    sI.cursor_tex = s.cursor_tex := by
  by_cases hpbo : s.cursor_pbo = 0
  · simp [resolve_manip_issue, ASSERT, hpbo] at h
  · simp [resolve_manip_issue, ASSERT, hpbo, glBindBuffer] at h
    rw [← h]

theorem resolve_manip_tex (hst : Host) (mx my : Int) (s sR : World)
    (h : resolve_manip hst mx my s = some sR) : sR.cursor_tex = s.cursor_tex := by
  simp only [resolve_manip, Option.bind_eq_bind, Option.bind_eq_some] at h
  obtain ⟨sC, hC, h⟩ := h
  split at h
  · simp only [Option.bind_eq_bind, Option.bind_eq_some, Option.some.injEq] at h
    obtain ⟨s1, h1, s2, h2, h3⟩ := h
    rw [← h3, (resolve_manip_restore_spec hst _ s2).2.2.1, resolve_manip_issue_tex _ _ h2,
      resolve_manip_render_tex _ _ _ _ _ _ h1, resolve_manip_complete_tex _ _ _ hC]
  · cases h

theorem paint_manip_tex (hst : Host) (s sP : World)
    (h : paint_manip hst s = some sP) : sP.cursor_tex = s.cursor_tex := by
  unfold paint_manip at h
  split at h
  · simp only [Option.bind_eq_bind, Option.bind_eq_some, Option.some.injEq] at h
    obtain ⟨_, -, h2⟩ := h
    rw [← h2]
    simp only [glViewport, obj8_set_render_mode2, glEnable, glUniform1f, glUniformMatrix4fv,
      shader_obj_bind, emit_fields, gl_call_fields, obj8_draw_group_fields]
    split_ifs <;> rfl
  · cases h

theorem draw_cb_tex (hst : Host) (s s' : World) (r : Int)
    (h : draw_cb hst s = some (r, s')) : s'.cursor_tex = s.cursor_tex := by
  unfold draw_cb at h
  split at h
  · dsimp only at h
    split_ifs at h with hc
    · simp only [Option.some.injEq, Prod.mk.injEq] at h
      rw [← h.2]
    · simp only [Option.bind_eq_bind, Option.bind_eq_some, Option.some.injEq,
        Prod.mk.injEq] at h
      obtain ⟨sR, hR, h⟩ := h
      have hRt := resolve_manip_tex _ _ _ _ _ hR
      simp only [shader_obj_reload_check, emit_fields] at hRt
      split_ifs at h with hm
      · simp only [Option.bind_eq_bind, Option.bind_eq_some, Option.some.injEq,
          Prod.mk.injEq] at h
        obtain ⟨sP, hP, -, h3⟩ := h
        rw [← h3, ← hRt, ← paint_manip_tex _ _ _ hP]
        simp [glUseProgram0]
      · simp only [Option.bind_eq_bind, Option.bind_eq_some, Option.some.injEq,
          Prod.mk.injEq] at h
        obtain ⟨sP, hP, -, h3⟩ := h
        rw [← h3, ← hRt, ← hP]
        simp [glUseProgram0]
  · cases h

theorem create_cursor_objects_tex (g : GenOutcome) (s s' : World)
    (h : create_cursor_objects g s = some s') : s'.cursor_tex.1 ≠ 0 := by
  by_cases h0 : g.tex0 = 0
  · simp [create_cursor_objects, glGenTextures, VERIFY, h0] at h
  · by_cases h1 : g.fbo = 0
    · simp [create_cursor_objects, glGenTextures, glGenFramebuffers, setup_texture, VERIFY,
        h0, h1] at h
    · by_cases h2 : g.pbo = 0
      · simp [create_cursor_objects, glGenTextures, glGenFramebuffers, glGenBuffers,
          setup_texture, setup_color_fbo_for_tex, VERIFY, h0, h1, h2] at h
      · simp [create_cursor_objects, glGenTextures, glGenFramebuffers, glGenBuffers,
          setup_texture, setup_color_fbo_for_tex, glBindBuffer, glBufferData, VERIFY,
          h0, h1, h2] at h
        rw [← h]
        simpa using h0

theorem destroy_cursor_objects_tex (s : World) :
    (destroy_cursor_objects s).cursor_tex =
      if s.cursor_tex.1 = 0 then s.cursor_tex else (0, 0) := by
  by_cases h0 : s.cursor_pbo = 0 <;> by_cases h1 : s.cursor_fbo = 0 <;>
    by_cases h2 : s.cursor_tex.1 = 0 <;>
    simp [destroy_cursor_objects, glDeleteBuffers, glDeleteFramebuffers, glDeleteTextures,
      h0, h1, h2]

theorem destroy_cursor_objects_idem (s : World) :
    destroy_cursor_objects (destroy_cursor_objects s) = destroy_cursor_objects s := by
  by_cases h0 : s.cursor_pbo = 0 <;> by_cases h1 : s.cursor_fbo = 0 <;>
    by_cases h2 : s.cursor_tex.1 = 0 <;>
    simp [destroy_cursor_objects, glDeleteBuffers, glDeleteFramebuffers, glDeleteTextures,
      h0, h1, h2]

theorem destroy_cursor_objects_pbo_fbo (s : World) :
    (destroy_cursor_objects s).cursor_pbo = 0 ∧ (destroy_cursor_objects s).cursor_fbo = 0 := by
  by_cases h0 : s.cursor_pbo = 0 <;> by_cases h1 : s.cursor_fbo = 0 <;>
    by_cases h2 : s.cursor_tex.1 = 0 <;>
    simp [destroy_cursor_objects, glDeleteBuffers, glDeleteFramebuffers, glDeleteTextures,
      h0, h1, h2]

theorem reachable_tex_pair (s : World) (hs : Reachable s) :
    s.cursor_tex.1 = 0 → s.cursor_tex.2 = 0 := by
  induction hs with
  | init s h0 _ _ => intro _; rw [h0]
  | create g s s' _ hc _ => intro h; exact absurd h (create_cursor_objects_tex g s s' hc)
  | destroy s _ ih =>
    rw [destroy_cursor_objects_tex]
    split_ifs with h
    · exact ih
    · intro _; rfl
  | draw hst s s' r _ hd ih => rw [draw_cb_tex hst s s' r hd]; exact ih
  | other s s' _ ht _ _ ih => rw [ht]; exact ih

/-! ## C1: a failed mapping -/

/-- C1, counterexample: a transfer is pending (`cursor_xfer = true`), the mapping fails,
and after `resolve_manip_complete` the identifier is still 65535 but `cursor_xfer` is
`false`: the channel does not stay Pending. -/
theorem failed_map_leaves_channel_idle :
    world_pending.cursor_xfer = true ∧ host_map_fail.map_ok = false ∧
      world_pending.manip_idx = 65535 ∧
      (resolve_manip_complete host_map_fail world_pending).map
        (fun s => (s.manip_idx, s.cursor_xfer)) = some (65535, false) := by
  decide

/-- C1, amended: in every state with a transfer pending (and the transfer buffer
allocated), when the mapping fails `resolve_manip_complete` returns, keeps `manip_idx`
and clears `cursor_xfer`. -/
theorem resolve_manip_complete_map_fail (hst : Host) (s : World)
    (hx : s.cursor_xfer = true) (hpbo : s.cursor_pbo ≠ 0) (hm : hst.map_ok = false) :
    ∃ s', resolve_manip_complete hst s = some s' ∧ s'.manip_idx = s.manip_idx ∧
      s'.cursor_xfer = false := by
  obtain ⟨sC, hC, c1, c2, -⟩ := resolve_manip_complete_spec hst s hpbo
  exact ⟨sC, hC, by simpa [hx, hm] using c1, c2⟩

/-- C1, witness: a pending transfer holding 42, mapping fails. -/
theorem resolve_manip_complete_map_fail_witness :
    (world_pending.cursor_xfer = true ∧ world_pending.cursor_pbo ≠ 0 ∧
        host_map_fail.map_ok = false) ∧
      ∃ s', resolve_manip_complete host_map_fail world_pending = some s' ∧
        s'.manip_idx = world_pending.manip_idx ∧ s'.cursor_xfer = false :=
  ⟨by decide, resolve_manip_complete_map_fail host_map_fail world_pending (by decide)
    (by decide) (by decide)⟩

/-! ## C2: the one-frame lag of the resolved identifier -/

/-- C2: for two consecutive calls of `resolve_manip` (frames N and N+1) with the mapping
succeeding on frame N+1, both calls return, the identifier after frame N+1 is the texel
that frame N rendered (so it is `v` whenever that texel is `v`), and the identifier after
frame N is the content of the transfer buffer queued before frame N when that transfer was
pending and mapped, else the previous identifier: it does not depend on frame N's texel. -/
theorem resolve_manip_one_frame_lag (hN hN1 : Host) (mxN myN mxN1 myN1 : Int) (s : World)
    (v : Nat) (x y w h x1 y1 w1 h1 : Int)
    (hfbo : s.cursor_fbo ≠ 0) (hpbo : s.cursor_pbo ≠ 0) (hobj : s.obj = true)
    (hvpN : dr_getvi hN.viewport 0 4 = [x, y, w, h])
    (hvpN1 : dr_getvi hN1.viewport 0 4 = [x1, y1, w1, h1])
    (hmap : hN1.map_ok = true) :
    ∃ sN sN1, resolve_manip hN mxN myN s = some sN ∧
      resolve_manip hN1 mxN1 myN1 sN = some sN1 ∧
      sN.pick_texel = drawn_texel hN.drawn 65535 ∧
      (sN.pick_texel = v → sN1.manip_idx = v) ∧
      sN.manip_idx =
        (if s.cursor_xfer && hN.map_ok then s.pbo_data % 65536 else s.manip_idx) := by
  obtain ⟨sN, hsN, n1, n2, n3, n4, n5, n6, n7, n8, n9, n10, n11, n12, -⟩ :=
    resolve_manip_spec hN mxN myN s x y w h hfbo hpbo hobj hvpN
  obtain ⟨sN1, hsN1, m1, -⟩ :=
    resolve_manip_spec hN1 mxN1 myN1 sN x1 y1 w1 h1 (by rw [n4]; exact hfbo)
      (by rw [n5]; exact hpbo) (by rw [n6]; exact hobj) hvpN1
  refine ⟨sN, sN1, hsN, hsN1, n11, ?_, n1⟩
  intro hv
  have hlt : v < 65536 := by rw [← hv, n11]; exact drawn_texel_lt hN.drawn
  rw [m1, n2, hmap, n12, ← n11, hv]
  simpa using Nat.mod_eq_of_lt hlt

/-- C2, witness: manipulator 42 is rendered on frame N (`v = 42`). -/
theorem resolve_manip_one_frame_lag_witness :
    (world1.cursor_fbo ≠ 0 ∧ world1.cursor_pbo ≠ 0 ∧ world1.obj = true ∧
        dr_getvi host_hit42.viewport 0 4 = [0, 0, 800, 600] ∧
        dr_getvi host0.viewport 0 4 = [0, 0, 800, 600] ∧ host0.map_ok = true) ∧
      ∃ sN sN1, resolve_manip host_hit42 400 300 world1 = some sN ∧
        resolve_manip host0 400 300 sN = some sN1 ∧
        sN.pick_texel = drawn_texel host_hit42.drawn 65535 ∧
        (sN.pick_texel = 42 → sN1.manip_idx = 42) ∧
        sN.manip_idx =
          (if world1.cursor_xfer && host_hit42.map_ok then world1.pbo_data % 65536
            else world1.manip_idx) :=
  ⟨by decide, resolve_manip_one_frame_lag host_hit42 host0 400 300 400 300 world1 42
    0 0 800 600 0 0 800 600 (by decide) (by decide) rfl rfl rfl rfl⟩

/-! ## C3: the blink waveform -/

/-- C3: the blink alpha of `paint_manip`, as an exact rational function of
`t = now - blink_start_t`, has period 1,000,000, lies in `[0, 1]`, is 1 exactly when
`t mod 1,000,000 = 500,000`, is 0 at `t = 0` and `t = 1,000,000`, moves by exactly
`1 / 500,000` between consecutive microseconds, and is 1/2, 1, 1/2 at
`t = 250,000, 500,000, 750,000`. -/
theorem blink_alpha_waveform :
    (∀ t, blink_alpha (t + 1000000) = blink_alpha t) ∧
      (∀ t, 0 ≤ blink_alpha t ∧ blink_alpha t ≤ 1) ∧
      (∀ t, blink_alpha t = 1 ↔ t % 1000000 = 500000) ∧
      blink_alpha 0 = 0 ∧ blink_alpha 1000000 = 0 ∧
      (∀ t, |blink_alpha (t + 1) - blink_alpha t| = 1 / 500000) ∧
      blink_alpha 250000 = 1 / 2 ∧ blink_alpha 500000 = 1 ∧ blink_alpha 750000 = 1 / 2 := by
  refine ⟨?_, ?_, ?_, ?_, ?_, ?_, ?_, ?_, ?_⟩
  · intro t
    simp [blink_alpha]
  · intro t
    rw [blink_alpha_eq]
    have hd : t % 1000000 < 1000000 := Nat.mod_lt _ (by norm_num)
    have hd' : ((t % 1000000 : Nat) : ℚ) < 1000000 := by exact_mod_cast hd
    have h0 : (0 : ℚ) ≤ ((t % 1000000 : Nat) : ℚ) := Nat.cast_nonneg _
    split_ifs with hlt
    · have hlt' : ((t % 1000000 : Nat) : ℚ) < 500000 := by exact_mod_cast hlt
      constructor
      · positivity
      · rw [div_le_one (by norm_num)]; linarith
    · have hge : (500000 : ℚ) ≤ ((t % 1000000 : Nat) : ℚ) := by
        exact_mod_cast Nat.le_of_not_lt hlt
      constructor
      · rw [sub_nonneg, div_le_iff₀ (by norm_num)]; linarith
      · rw [sub_le_iff_le_add, ← sub_le_iff_le_add', le_div_iff₀ (by norm_num)]; linarith
  · intro t
    rw [blink_alpha_eq]
    split_ifs with hlt
    · have hlt' : ((t % 1000000 : Nat) : ℚ) < 500000 := by exact_mod_cast hlt
      constructor
      · intro h1
        rw [div_eq_one_iff_eq (by norm_num)] at h1
        linarith
      · intro h1; omega
    · constructor
      · intro h1
        have h2 : ((t % 1000000 : Nat) : ℚ) = 500000 := by
          have h3 : ((t % 1000000 : Nat) : ℚ) / 500000 = 1 := by linarith
          rwa [div_eq_one_iff_eq (by norm_num)] at h3
        exact_mod_cast h2
      · intro h1
        rw [h1]; norm_num
  · norm_num [blink_alpha]
  · norm_num [blink_alpha]
  · intro t
    rw [blink_alpha_eq, blink_alpha_eq]
    have hd : t % 1000000 < 1000000 := Nat.mod_lt _ (by norm_num)
    have hstep : ((t + 1) % 1000000 = t % 1000000 + 1 ∧ t % 1000000 < 999999) ∨
        ((t + 1) % 1000000 = 0 ∧ t % 1000000 = 999999) := by omega
    rcases hstep with ⟨h1, h2⟩ | ⟨h1, h2⟩
    · rw [h1]
      by_cases ha : t % 1000000 + 1 < 500000
      · have hb : t % 1000000 < 500000 := by omega
        rw [if_pos ha, if_pos hb]
        push_cast
        rw [show (((t % 1000000 : Nat) : ℚ) + 1) / 500000 - ((t % 1000000 : Nat) : ℚ) / 500000
          = 1 / 500000 by ring]
        norm_num [abs_of_pos]
      · by_cases hb : t % 1000000 < 500000
        · have hc : t % 1000000 = 499999 := by omega
          rw [if_neg ha, if_pos hb, hc]
          norm_num [abs_of_pos]
        · rw [if_neg ha, if_neg hb]
          push_cast
          rw [show (2 : ℚ) - (((t % 1000000 : Nat) : ℚ) + 1) / 500000 -
            (2 - ((t % 1000000 : Nat) : ℚ) / 500000) = -(1 / 500000) by ring]
          rw [abs_neg]
          norm_num [abs_of_pos]
    · rw [h1, h2]
      norm_num [abs_of_pos]
  · norm_num [blink_alpha]
  · norm_num [blink_alpha]
  · norm_num [blink_alpha]

/-! ## C4: the blink restart rule -/

/-- C4, counterexample. All frames have the cursor inside the viewport, so each performs
a pick pass; the second frame highlights manipulator 42 and the third resolves 65535 and
draws no highlight.
First run, frames 150,000 us apart: on the final frame the identifier is 42, equal to
`prev_manip_idx`, and the last pick pass is 150,000 us old, yet `blink_start_t` moves from
1,150,000 to 1,450,000 (the last highlight is 300,000 us old).
Second run, frames 50,000 us apart: the identifier changes from 65535 on the frame before
to 42 on the final frame, and `blink_start_t` stays 1,050,000 (42 is still
`prev_manip_idx` and the last highlight is 100,000 us old). -/
theorem blink_restart_after_unpicked_frame :
    blink_report [frame_at 1000000 (some 42), frame_at 1150000 none, frame_at 1300000 (some 42)]
        (frame_at 1450000 (some 42)) world1 =
      some { last_pick_t := some 1300000, now := 1450000, idx_before := 65535,
             prev_manip_idx := 42, last_draw_t := 1150000, blink_start_before := 1150000,
             idx_after := 42, blink_start_after := 1450000 } ∧
    blink_report [frame_at 1000000 (some 42), frame_at 1050000 none, frame_at 1100000 (some 42)]
        (frame_at 1150000 (some 42)) world1 =
      some { last_pick_t := some 1100000, now := 1150000, idx_before := 65535,
             prev_manip_idx := 42, last_draw_t := 1050000, blink_start_before := 1050000,
             idx_after := 42, blink_start_after := 1050000 } := by
  constructor <;> rfl

/-- C4, amended: on every frame whose cursor is inside the viewport and whose resolved
identifier is not 65535, `draw_cb` returns with `last_draw_t` set to the frame time; if the
identifier differs from `prev_manip_idx`, or more than 200,000 us passed since
`last_draw_t` (the last frame that drew a highlight), then `blink_start_t` becomes the
frame time, `prev_manip_idx` the identifier, and the alpha uploaded is 0; otherwise
`blink_start_t` and `prev_manip_idx` are unchanged. -/
theorem draw_cb_blink_restart (hst : Host) (s : World) (x y w h : Int)
    (hfbo : s.cursor_fbo ≠ 0) (hpbo : s.cursor_pbo ≠ 0) (hobj : s.obj = true)
    (hvp : dr_getvi hst.viewport 0 4 = [x, y, w, h])
    (hin : ¬cursor_outside hst x y w h) (hid : resolved_idx hst s ≠ UINT16_MAX) :
    ∃ s' cs, draw_cb hst s = some (1, s') ∧ s'.trace = s.trace ++ cs ∧
      s'.manip_idx = resolved_idx hst s ∧ s'.last_draw_t = microclock hst ∧
      (blink_restart hst s (resolved_idx hst s) →
        s'.blink_start_t = microclock hst ∧ s'.prev_manip_idx = resolved_idx hst s ∧
          alpha_uploads cs = [0]) ∧
      (¬blink_restart hst s (resolved_idx hst s) →
        s'.blink_start_t = s.blink_start_t ∧ s'.prev_manip_idx = s.prev_manip_idx ∧
          alpha_uploads cs = [blink_alpha (u64_sub (microclock hst) s.blink_start_t)]) := by
  obtain ⟨s', cs, hrun, htr, hidx, -, hpaint⟩ :=
    draw_cb_inside_spec hst s x y w h hfbo hpbo hobj hvp hin
  obtain ⟨-, hlast, hstart, hprev, halpha⟩ := hpaint hid
  refine ⟨s', cs, hrun, htr, hidx, hlast, ?_, ?_⟩
  · intro hr
    rw [if_pos hr] at hstart hprev
    refine ⟨hstart, hprev, ?_⟩
    rw [halpha, hstart, u64_sub_self, blink_alpha_zero]
  · intro hr
    rw [if_neg hr] at hstart hprev
    refine ⟨hstart, hprev, ?_⟩
    rw [halpha, hstart]

/-- C4, witness: the identifier changes from 42 to 7 between two consecutive frames. -/
theorem draw_cb_blink_restart_witness :
    (world_42_to_7.cursor_fbo ≠ 0 ∧ world_42_to_7.cursor_pbo ≠ 0 ∧
        world_42_to_7.obj = true ∧ dr_getvi host0.viewport 0 4 = [0, 0, 800, 600] ∧
        ¬cursor_outside host0 0 0 800 600 ∧ resolved_idx host0 world_42_to_7 = 7 ∧
        world_42_to_7.prev_manip_idx = 42 ∧ blink_restart host0 world_42_to_7 7) ∧
      ∃ s' cs, draw_cb host0 world_42_to_7 = some (1, s') ∧
        s'.trace = world_42_to_7.trace ++ cs ∧
        s'.manip_idx = resolved_idx host0 world_42_to_7 ∧ s'.last_draw_t = microclock host0 ∧
        (blink_restart host0 world_42_to_7 (resolved_idx host0 world_42_to_7) →
          s'.blink_start_t = microclock host0 ∧
            s'.prev_manip_idx = resolved_idx host0 world_42_to_7 ∧ alpha_uploads cs = [0]) ∧
        (¬blink_restart host0 world_42_to_7 (resolved_idx host0 world_42_to_7) →
          s'.blink_start_t = world_42_to_7.blink_start_t ∧
            s'.prev_manip_idx = world_42_to_7.prev_manip_idx ∧
            alpha_uploads cs =
              [blink_alpha (u64_sub (microclock host0) world_42_to_7.blink_start_t)]) :=
  ⟨by decide, draw_cb_blink_restart host0 world_42_to_7 0 0 800 600 (by decide) (by decide)
    rfl rfl (by decide) (by decide)⟩

/-! ## C5: cursor outside the viewport -/

/-- C5: when the cursor is outside the viewport, `draw_cb` returns 1 and leaves the whole
state unchanged, the trace of external calls included: no pick pass, no highlight pass,
and `cursor_xfer`, `manip_idx`, `prev_manip_idx`, `last_draw_t`, `blink_start_t` keep their
values. -/
theorem draw_cb_cursor_outside (hst : Host) (s : World) (x y w h : Int)
    (hvp : dr_getvi hst.viewport 0 4 = [x, y, w, h])
    (hout : hst.mouse_x < x ∨ hst.mouse_x > x + w ∨ hst.mouse_y < y ∨ hst.mouse_y > y + h) :
    draw_cb hst s = some (1, s) :=
  draw_cb_outside hst s x y w h hvp hout

/-- C5, witness: cursor at (900, 300), right of an 800x600 viewport. -/
theorem draw_cb_cursor_outside_witness :
    (dr_getvi host_outside.viewport 0 4 = [0, 0, 800, 600] ∧
        (host_outside.mouse_x < 0 ∨ host_outside.mouse_x > 0 + 800 ∨
          host_outside.mouse_y < 0 ∨ host_outside.mouse_y > 0 + 600)) ∧
      draw_cb host_outside world_pending = some (1, world_pending) :=
  ⟨by decide, draw_cb_cursor_outside host_outside world_pending 0 0 800 600 rfl (by decide)⟩

/-! ## C6: no highlight for the NONE identifier -/

/-- C6: every frame of `draw_cb` (GPU objects allocated, four-element viewport) returns 1;
if any call of the highlight pass was made during the frame then the resolved identifier
after the frame is not 65535; and if the resolved identifier is 65535 then no call of the
highlight pass was made and `prev_manip_idx`, `last_draw_t`, `blink_start_t` are
unchanged. -/
theorem draw_cb_highlight_only_if_picked (hst : Host) (s : World) (x y w h : Int)
    (hfbo : s.cursor_fbo ≠ 0) (hpbo : s.cursor_pbo ≠ 0) (hobj : s.obj = true)
    (hvp : dr_getvi hst.viewport 0 4 = [x, y, w, h]) :
    ∃ s' cs, draw_cb hst s = some (1, s') ∧ s'.trace = s.trace ++ cs ∧
      ((∃ c ∈ cs, is_paint_call c = true) → s'.manip_idx ≠ UINT16_MAX) ∧
      (s'.manip_idx = UINT16_MAX →
        (∀ c ∈ cs, is_paint_call c = false) ∧ s'.prev_manip_idx = s.prev_manip_idx ∧
          s'.last_draw_t = s.last_draw_t ∧ s'.blink_start_t = s.blink_start_t) := by
  by_cases hout : cursor_outside hst x y w h
  · refine ⟨s, [], draw_cb_outside hst s x y w h hvp hout, by simp, ?_, ?_⟩
    · rintro ⟨c, hc, -⟩; simp at hc
    · intro _; simp
  · obtain ⟨s', cs, hrun, htr, hidx, hnone, hpaint⟩ :=
      draw_cb_inside_spec hst s x y w h hfbo hpbo hobj hvp hout
    refine ⟨s', cs, hrun, htr, ?_, ?_⟩
    · rintro ⟨c, hc, hp⟩ hmax
      have := (hnone (hidx ▸ hmax)).1 c hc
      rw [this] at hp
      exact Bool.false_ne_true hp
    · intro hmax
      exact hnone (hidx ▸ hmax)

/-- C6, witness: first frame after activation, the identifier is still 65535. -/
theorem draw_cb_highlight_only_if_picked_witness :
    (world1.cursor_fbo ≠ 0 ∧ world1.cursor_pbo ≠ 0 ∧ world1.obj = true ∧
        dr_getvi host0.viewport 0 4 = [0, 0, 800, 600]) ∧
      ∃ s' cs, draw_cb host0 world1 = some (1, s') ∧ s'.trace = world1.trace ++ cs ∧
        ((∃ c ∈ cs, is_paint_call c = true) → s'.manip_idx ≠ UINT16_MAX) ∧
        (s'.manip_idx = UINT16_MAX →
          (∀ c ∈ cs, is_paint_call c = false) ∧
            s'.prev_manip_idx = world1.prev_manip_idx ∧
            s'.last_draw_t = world1.last_draw_t ∧ s'.blink_start_t = world1.blink_start_t) :=
  ⟨by decide, draw_cb_highlight_only_if_picked host0 world1 0 0 800 600 (by decide)
    (by decide) rfl rfl⟩

/-! ## C7: allocation of the GPU objects -/

/-- C7, counterexample: the depth texture handle `cursor_tex[1]` comes back as 0 (the
other three handles are 1) and `create_cursor_objects` completes. -/
theorem create_cursor_objects_null_depth_texture :
    gen_no_depth.tex1 = 0 ∧
      (create_cursor_objects gen_no_depth world0).map
        (fun s => (s.cursor_tex, s.cursor_fbo, s.cursor_pbo)) = some ((1, 0), 1, 1) := by
  decide

/-- C7, amended: `create_cursor_objects` aborts exactly when `cursor_tex[0]`, `cursor_fbo`
or `cursor_pbo` comes back as 0; otherwise it completes and the four handles are those the
allocations returned (`cursor_tex[1]` is not checked). -/
theorem create_cursor_objects_checks (g : GenOutcome) (s : World) :
    (create_cursor_objects g s = none ↔ g.tex0 = 0 ∨ g.fbo = 0 ∨ g.pbo = 0) ∧
      (create_cursor_objects g s).map (fun s' => (s'.cursor_tex, s'.cursor_fbo, s'.cursor_pbo)) =
        (if g.tex0 = 0 ∨ g.fbo = 0 ∨ g.pbo = 0 then none
          else some ((g.tex0, g.tex1), g.fbo, g.pbo)) := by
  by_cases h0 : g.tex0 = 0
  · simp [create_cursor_objects, glGenTextures, VERIFY, h0]
  · by_cases h1 : g.fbo = 0
    · simp [create_cursor_objects, glGenTextures, glGenFramebuffers, setup_texture, VERIFY,
        h0, h1]
    · by_cases h2 : g.pbo = 0
      · simp [create_cursor_objects, glGenTextures, glGenFramebuffers, glGenBuffers,
          setup_texture, setup_color_fbo_for_tex, VERIFY, h0, h1, h2]
      · simp [create_cursor_objects, glGenTextures, glGenFramebuffers, glGenBuffers,
          setup_texture, setup_color_fbo_for_tex, glBindBuffer, glBufferData, VERIFY,
          h0, h1, h2]

/-! ## C8: the graphics state around the pick pass -/

/-- C8, counterexample: the host is not reversed-float-Z, and on entry the depth test is
enabled with depth function `LEQUAL`. After `resolve_manip` the depth test is disabled
(not what it was), and during the pick pass the depth function is `LEQUAL`, not `LESS`. -/
theorem resolve_manip_depth_state_not_restored :
    (is_rev_float_z world_depth_on.xpver host0, world_depth_on.gl.depth_test,
        world_depth_on.gl.depth_func,
        (resolve_manip host0 400 300 world_depth_on).map (fun s => s.gl.depth_test),
        (resolve_manip_pass host0 400 300 world_depth_on).map (fun s => s.gl.depth_func)) =
      (false, true, .LEQUAL, some false, some .LEQUAL) := by
  decide

/-- C8, amended: for both depth conventions and every prior state that is the host's
default (depth test and depth writes off, depth function `LESS`, clear depth 1, the
framebuffer and the viewport those the host reports in its datarefs), `resolve_manip`
returns and leaves the bound framebuffer, the depth test, mask, function and clear value
and the viewport as they were; during the pick pass the pick framebuffer is bound, the
depth test and writes are on, and the depth function and clear value are `GREATER` / 0
under reversed-float-Z and `LESS` / 1 otherwise. -/
theorem resolve_manip_restores_host_state (hst : Host) (mx my : Int) (s : World)
    (x y w h : Int)
    (hfbo : s.cursor_fbo ≠ 0) (hpbo : s.cursor_pbo ≠ 0) (hobj : s.obj = true)
    (hvp : dr_getvi hst.viewport 0 4 = [x, y, w, h])
    (hdt : s.gl.depth_test = false) (hdm : s.gl.depth_mask = false)
    (hdf : s.gl.depth_func = .LESS) (hcd : s.gl.clear_depth = 1)
    (hfb : s.gl.framebuffer = int_to_GLuint hst.fbo) (hview : s.gl.viewport = ⟨x, y, w, h⟩) :
    ∃ sP s', resolve_manip_pass hst mx my s = some sP ∧ resolve_manip hst mx my s = some s' ∧
      s'.gl.framebuffer = s.gl.framebuffer ∧ s'.gl.viewport = s.gl.viewport ∧
      s'.gl.depth_test = s.gl.depth_test ∧ s'.gl.depth_mask = s.gl.depth_mask ∧
      s'.gl.depth_func = s.gl.depth_func ∧ s'.gl.clear_depth = s.gl.clear_depth ∧
      sP.gl.framebuffer = s.cursor_fbo ∧ sP.gl.depth_test = true ∧ sP.gl.depth_mask = true ∧
      sP.gl.depth_func = (if is_rev_float_z s.xpver hst then .GREATER else .LESS) ∧
      sP.gl.clear_depth = (if is_rev_float_z s.xpver hst then 0 else 1) := by
  obtain ⟨sP, hP, p1, -, p3, p4, p5, p6⟩ :=
    resolve_manip_pass_spec hst mx my s x y w h hfbo hpbo hobj hvp
  obtain ⟨s', hs', -, -, -, -, -, -, -, -, -, -, -, -, r13, r14, r15, r16, r17, r18, -⟩ :=
    resolve_manip_spec hst mx my s x y w h hfbo hpbo hobj hvp
  refine ⟨sP, s', hP, hs', by rw [r13, hfb], by rw [r14, hview], by rw [r15, hdt],
    by rw [r16, hdm], ?_, ?_, p1, p3, p4, by rw [p5, hdf], by rw [p6, hcd]⟩
  · rw [r17, hdf]; split_ifs <;> rfl
  · rw [r18, hcd]; split_ifs <;> rfl

/-- C8, witness: the host's default context, not reversed-float-Z. -/
theorem resolve_manip_restores_host_state_witness :
    (world1.cursor_fbo ≠ 0 ∧ world1.cursor_pbo ≠ 0 ∧ world1.obj = true ∧
        dr_getvi host0.viewport 0 4 = [0, 0, 800, 600] ∧
        world1.gl.depth_test = false ∧ world1.gl.depth_mask = false ∧
        world1.gl.depth_func = .LESS ∧ world1.gl.clear_depth = 1 ∧
        world1.gl.framebuffer = int_to_GLuint host0.fbo ∧
        world1.gl.viewport = ⟨0, 0, 800, 600⟩) ∧
      ∃ sP s', resolve_manip_pass host0 400 300 world1 = some sP ∧
        resolve_manip host0 400 300 world1 = some s' ∧
        s'.gl.framebuffer = world1.gl.framebuffer ∧ s'.gl.viewport = world1.gl.viewport ∧
        s'.gl.depth_test = world1.gl.depth_test ∧ s'.gl.depth_mask = world1.gl.depth_mask ∧
        s'.gl.depth_func = world1.gl.depth_func ∧ s'.gl.clear_depth = world1.gl.clear_depth ∧
        sP.gl.framebuffer = world1.cursor_fbo ∧ sP.gl.depth_test = true ∧
        sP.gl.depth_mask = true ∧
        sP.gl.depth_func = (if is_rev_float_z world1.xpver host0 then .GREATER else .LESS) ∧
        sP.gl.clear_depth = (if is_rev_float_z world1.xpver host0 then 0 else 1) :=
  ⟨by decide, resolve_manip_restores_host_state host0 400 300 world1 0 0 800 600 (by decide)
    (by decide) rfl rfl rfl rfl rfl rfl rfl rfl⟩

/-! ## C9: the viewport of the pick pass -/

/-- C9: for every viewport `(x, y, w, h)` and cursor `(mx, my)`, the pick pass of
`resolve_manip` runs with the viewport `(x - mx, y - my, w, h)`; under the viewport
transformation every point's window coordinate in the pick pass is its window coordinate
under the original viewport minus `(mx, my)`; so a point lies in texel (0, 0) of the pick
target exactly when the original viewport puts it in screen pixel `(mx, my)`. -/
theorem resolve_manip_pick_viewport (hst : Host) (mx my : Int) (s : World) (x y w h : Int)
    (hfbo : s.cursor_fbo ≠ 0) (hpbo : s.cursor_pbo ≠ 0) (hobj : s.obj = true)
    (hvp : dr_getvi hst.viewport 0 4 = [x, y, w, h]) :
    ∃ sP, resolve_manip_pass hst mx my s = some sP ∧
      sP.gl.viewport = ⟨x - mx, y - my, w, h⟩ ∧
      ∀ nd : ℚ × ℚ,
        window_coord sP.gl.viewport nd =
            ((window_coord ⟨x, y, w, h⟩ nd).1 - mx, (window_coord ⟨x, y, w, h⟩ nd).2 - my) ∧
          (pixel_of (window_coord sP.gl.viewport nd) = (0, 0) ↔
            pixel_of (window_coord ⟨x, y, w, h⟩ nd) = (mx, my)) := by
  obtain ⟨sP, hP, -, p2, -⟩ := resolve_manip_pass_spec hst mx my s x y w h hfbo hpbo hobj hvp
  refine ⟨sP, hP, p2, ?_⟩
  intro nd
  have hw : window_coord sP.gl.viewport nd =
      ((window_coord ⟨x, y, w, h⟩ nd).1 - mx, (window_coord ⟨x, y, w, h⟩ nd).2 - my) := by
    rw [p2]
    simp only [window_coord, Int.cast_sub]
    ext <;> simp <;> ring
  refine ⟨hw, ?_⟩
  rw [hw]
  simp only [pixel_of, Int.floor_sub_int, Prod.mk.injEq, sub_eq_zero]

/-- C9, witness: cursor at (400, 300) in an 800x600 viewport at the origin. -/
theorem resolve_manip_pick_viewport_witness :
    (world1.cursor_fbo ≠ 0 ∧ world1.cursor_pbo ≠ 0 ∧ world1.obj = true ∧
        dr_getvi host0.viewport 0 4 = [0, 0, 800, 600]) ∧
      ∃ sP, resolve_manip_pass host0 400 300 world1 = some sP ∧
        sP.gl.viewport = ⟨0 - 400, 0 - 300, 800, 600⟩ ∧
        ∀ nd : ℚ × ℚ,
          window_coord sP.gl.viewport nd =
              ((window_coord ⟨0, 0, 800, 600⟩ nd).1 - (400 : Int),
                (window_coord ⟨0, 0, 800, 600⟩ nd).2 - (300 : Int)) ∧
            (pixel_of (window_coord sP.gl.viewport nd) = (0, 0) ↔
              pixel_of (window_coord ⟨0, 0, 800, 600⟩ nd) = (400, 300)) :=
  ⟨by decide, resolve_manip_pick_viewport host0 400 300 world1 0 0 800 600 (by decide)
    (by decide) rfl rfl⟩

/-! ## C10: release of the GPU objects -/

/-- C10: in every state of the handles that the program can reach,
`destroy_cursor_objects` leaves `cursor_pbo`, `cursor_fbo`, `cursor_tex[0]` and
`cursor_tex[1]` equal to zero; and in every state whatsoever it is idempotent: applying it
twice gives the same state as applying it once, the trace of external calls included, so
the second application deletes no GPU object. -/
theorem destroy_cursor_objects_zeroes_handles (s : World) (hs : Reachable s) :
    (destroy_cursor_objects s).cursor_pbo = 0 ∧ (destroy_cursor_objects s).cursor_fbo = 0 ∧
      (destroy_cursor_objects s).cursor_tex = (0, 0) ∧
      ∀ t : World,
        destroy_cursor_objects (destroy_cursor_objects t) = destroy_cursor_objects t ∧
          (destroy_cursor_objects (destroy_cursor_objects t)).trace =
            (destroy_cursor_objects t).trace := by
  refine ⟨(destroy_cursor_objects_pbo_fbo s).1, (destroy_cursor_objects_pbo_fbo s).2, ?_, ?_⟩
  · rw [destroy_cursor_objects_tex]
    split_ifs with h
    · exact Prod.ext h (reachable_tex_pair s hs h)
    · rfl
  · intro t
    exact ⟨destroy_cursor_objects_idem t, by rw [destroy_cursor_objects_idem]⟩

/-- C10, witness: the state left by `create_cursor_objects` with handles 1, 2, 1, 1. -/
theorem destroy_cursor_objects_zeroes_handles_witness :
    (Reachable world_created ∧ world_created.cursor_tex = (1, 2) ∧
        world_created.cursor_fbo = 1 ∧ world_created.cursor_pbo = 1) ∧
      (destroy_cursor_objects world_created).cursor_pbo = 0 ∧
      (destroy_cursor_objects world_created).cursor_fbo = 0 ∧
      (destroy_cursor_objects world_created).cursor_tex = (0, 0) ∧
      ∀ t : World,
        destroy_cursor_objects (destroy_cursor_objects t) = destroy_cursor_objects t ∧
          (destroy_cursor_objects (destroy_cursor_objects t)).trace =
            (destroy_cursor_objects t).trace :=
  ⟨⟨Reachable.create gen_all world0 world_created (Reachable.init world0 rfl rfl rfl) rfl,
      rfl, rfl, rfl⟩,
    destroy_cursor_objects_zeroes_handles world_created
      (Reachable.create gen_all world0 world_created (Reachable.init world0 rfl rfl rfl) rfl)⟩

end Manipdraw
